import Mathlib

/-!
Shallow embedding of the fintracker valuation core and proofs about it.

Conventions used throughout:
* Python floats are modelled as rationals (`Rat`); the arithmetic performed by
  the code (multiplication, division, comparison) is exact on the inputs that
  appear in the development.
* Calendar dates and timestamps are modelled as integers (day numbers /
  tick counts); `timedelta(days = n)` becomes integer subtraction.
* Python `None` becomes `Option.none`; a fallible computation becomes
  `Except`.
* Python dictionaries used only through `get` are modelled as functions into
  `Option`.
-/

namespace Fintracker

/-- Status tag of a `Valuation` row (valuation/models.py, `Valuation.status`). -/
inductive VStatus where
  | ok
  | missing_input
  | stale_price
  | stale_fx
  | anomaly
deriving DecidableEq, Repr

/-- Market price row (valuation/models.py, `Price`). -/
structure Price where
  asof_dt : Int
  asof_ts : Option Int := none
  symbol : String
  price_type : String
  price : Rat
  currency : String
  venue : Option String := none
  source : String
  quality_score : Int := 100
  valid_from_ts : Option Int := none
  valid_to_ts : Option Int := none
deriving DecidableEq, Repr

/-- Holdings snapshot row (valuation/models.py, `Position`). -/
structure Position where
  snapshot_dt : Int
  snapshot_ts : Int
  account_id : String
  source : String
  market : Option String := none
  symbol : String
  raw_symbol : Option String := none
  asset_type : Option String := none
  currency : Option String := none
  quantity : Rat
  cost_basis_ccy : Option String := none
  cost_basis_per_unit : Option Rat := none
  position_id : Option String := none
  notes : Option String := none
deriving DecidableEq, Repr

/-- FX conversion rate row (valuation/models.py, `FXRate`). -/
structure FXRate where
  asof_dt : Int
  from_ccy : String
  to_ccy : String
  rate : Rat
  source : String
  max_age_days : Int := 3
deriving DecidableEq, Repr

/-- Derived valuation row (valuation/models.py, `Valuation`). -/
structure Valuation where
  snapshot_dt : Int
  computed_ts : Int
  account_id : String
  source : String
  market : Option String := none
  symbol : String
  asset_type : Option String := none
  quantity : Rat
  unit_price_native : Option Rat := none
  unit_price_native_ccy : Option String := none
  fx_rate_to_base : Option Rat := none
  unit_price_base : Option Rat := none
  value_base : Option Rat := none
  price_source : Option String := none
  price_quality_score : Option Int := none
  fx_source : Option String := none
  status : VStatus := .ok
deriving DecidableEq, Repr

/-- One step of the price-lookup construction in `compute_valuations`
(valuation/models.py lines 140-148): the first row for a symbol is stored; a
later row replaces the stored one when its `quality_score` is greater than
*or equal to* the stored row's score (the `>=` comparison in the source). -/
def price_lookup_step (lookup : String → Option Price) (price : Price) :
    String → Option Price :=
  fun sym =>
    if sym = price.symbol then
      match lookup price.symbol with
      | none => some price
      | some current =>
          if current.quality_score ≤ price.quality_score then some price
          else some current
    else lookup sym

/-- The price lookup built by `compute_valuations` (valuation/models.py lines
140-148), keyed by symbol. -/
def build_price_lookup (prices : List Price) : String → Option Price :=
  prices.foldl price_lookup_step (fun _ => none)

/-- The FX lookup built by `compute_valuations` (valuation/models.py lines
150-152): keyed by `(from_ccy, to_ccy)`, the last row for a pair wins. -/
def build_fx_lookup_cv (fx_rates : List FXRate) :
    String × String → Option FXRate :=
  fx_rates.foldl
    (fun lookup fx => fun k =>
      if k = (fx.from_ccy, fx.to_ccy) then some fx else lookup k)
    (fun _ => none)

/-- The fields shared by every `Valuation` emitted by `compute_valuations`
(the `base_kwargs` dictionary, valuation/models.py lines 158-167). -/
def base_valuation (snapshot_dt computed_ts : Int) (pos : Position) : Valuation :=
  { snapshot_dt := snapshot_dt
    computed_ts := computed_ts
    account_id := pos.account_id
    source := pos.source
    market := pos.market
    symbol := pos.symbol
    asset_type := pos.asset_type
    quantity := pos.quantity }

/-- The `Valuation` emitted when no price matched the position's symbol
(valuation/models.py line 170). -/
def missing_price_valuation (snapshot_dt computed_ts : Int) (pos : Position) :
    Valuation :=
  { base_valuation snapshot_dt computed_ts pos with status := .missing_input }

/-- The `Valuation` emitted when a price matched but no FX rate could be
resolved (valuation/models.py lines 188-197): native price fields are filled,
no base conversion. -/
def missing_fx_valuation (snapshot_dt computed_ts : Int) (pos : Position)
    (price : Price) : Valuation :=
  { base_valuation snapshot_dt computed_ts pos with
    unit_price_native := some price.price
    unit_price_native_ccy := some price.currency
    price_source := some price.source
    price_quality_score := some price.quality_score
    status := .missing_input }

/-- The `Valuation` emitted on the success path (valuation/models.py lines
200-216).  In the source, `fx_rate` always holds a float at this point, so
`unit_price_base` is never `None` and the status is always `"ok"`; the
embedding reflects the reachable outcome. -/
def ok_valuation (snapshot_dt computed_ts : Int) (pos : Position)
    (price : Price) (fx_rate : Rat) (fx_source : Option String) : Valuation :=
  { base_valuation snapshot_dt computed_ts pos with
    unit_price_native := some price.price
    unit_price_native_ccy := some price.currency
    fx_rate_to_base := some fx_rate
    unit_price_base := some (price.price * fx_rate)
    value_base := some (price.price * fx_rate * pos.quantity)
    price_source := some price.source
    price_quality_score := some price.quality_score
    fx_source := fx_source
    status := .ok }

/-- Body of the per-position loop of `compute_valuations` (valuation/models.py
lines 156-216).  Each loop iteration appends exactly one `Valuation`; this
function computes that row. -/
def value_position (price_lookup : String → Option Price)
    (fx_lookup : String × String → Option FXRate) (base_currency : String)
    (snapshot_dt computed_ts : Int) (pos : Position) : Valuation :=
  match price_lookup pos.symbol with
  | none => missing_price_valuation snapshot_dt computed_ts pos
  | some price =>
    if price.currency ≠ base_currency then
      match fx_lookup (price.currency, base_currency) with
      | some direct =>
          ok_valuation snapshot_dt computed_ts pos price direct.rate
            (some direct.source)
      | none =>
        match fx_lookup (base_currency, price.currency) with
        | some inverse =>
            if inverse.rate ≠ 0 then
              ok_valuation snapshot_dt computed_ts pos price (1 / inverse.rate)
                (some inverse.source)
            else missing_fx_valuation snapshot_dt computed_ts pos price
        | none => missing_fx_valuation snapshot_dt computed_ts pos price
    else ok_valuation snapshot_dt computed_ts pos price 1 none

/-- `compute_valuations` (valuation/models.py lines 125-218).  The optional
`snapshot_dt` / `computed_ts` arguments default to the current date/time in
the source; the embedding takes them as explicit arguments. -/
def compute_valuations (positions : List Position) (prices : List Price)
    (fx_rates : List FXRate) (base_currency : String)
    (snapshot_dt computed_ts : Int) : List Valuation :=
  let price_lookup := build_price_lookup prices
  let fx_lookup := build_fx_lookup_cv fx_rates
  positions.map
    (value_position price_lookup fx_lookup base_currency snapshot_dt computed_ts)

/-! Embedding of app/prices_history.py.  Snapshot rows are raw dictionaries
there; a cell is modelled as `Option` of the parsed value, `none` standing for
a missing, NaN or unparseable cell (`_safe_float` / `_safe_int` /
`_parse_date` / `_parse_datetime` all collapse those to `None`). -/

def DEFAULT_WINDOW_DAYS : Int := 30

def MAX_WINDOW_DAYS : Int := 180

def FX_LOOKBACK_BUFFER_DAYS : Int := 7

def FX_DEFAULT_MAX_AGE_DAYS : Int := 3

/-- Default base currency: `os.getenv("VALUATIONS_BASE_CURRENCY", "USD")`,
modelled with the default environment. -/
def DEFAULT_BASE_CURRENCY : String := "USD"

/-- Python `str.upper()`, modelled character-wise (kept kernel-computable,
unlike `String.toUpper`). -/
def py_upper (s : String) : String := String.mk (s.data.map Char.toUpper)

/-- Python `not symbol or not symbol.strip()`: true exactly when the string is
empty or consists only of whitespace characters. -/
def str_is_blank (s : String) : Bool := s.data.all Char.isWhitespace

/-- Raw FX snapshot row (a dict) for the price-history path; only the fields
`_build_fx_lookup` reads. -/
structure FxRow where
  asof_dt : Option Int := none
  from_ccy : Option String := none
  to_ccy : Option String := none
  rate : Option Rat := none
  max_age_days : Option Int := none
deriving DecidableEq, Repr

/-- Raw price snapshot row (a dict) for the price-history path.  A present but
unparseable timestamp cell is modelled as absent; the claims settled here do
not depend on that corner. -/
structure PriceRow where
  asof_dt : Option Int := none
  asof_ts : Option Int := none
  valid_from_ts : Option Int := none
  symbol : Option String := none
  price : Option Rat := none
  currency : Option String := none
  venue : Option String := none
  source : Option String := none
  quality_score : Option Int := none
deriving DecidableEq, Repr

/-- One step of `_build_fx_lookup` (prices_history.py lines 147-159): skip the
row when the date is unparseable, a currency is missing/empty, or the rate is
unparseable; otherwise append `(asof_dt, rate, age_limit)` to the pair's
list, where a missing `max_age_days` defaults to 3 and any present value
(including 0) is kept literally. -/
def fx_lookup_add (lookup : String × String → List (Int × Rat × Int))
    (row : FxRow) : String × String → List (Int × Rat × Int) :=
  match row.asof_dt with
  | none => lookup
  | some asof_dt =>
    let from_ccy := py_upper (row.from_ccy.getD "")
    let to_ccy := py_upper (row.to_ccy.getD "")
    match row.rate with
    | none => lookup
    | some rate =>
      if from_ccy = "" ∨ to_ccy = "" then lookup
      else
        let age_limit :=
          match row.max_age_days with
          | none => FX_DEFAULT_MAX_AGE_DAYS
          | some m => m
        fun k =>
          if k = (from_ccy, to_ccy) then lookup k ++ [(asof_dt, rate, age_limit)]
          else lookup k

/-- `_build_fx_lookup` (prices_history.py lines 145-163): per (from, to) pair,
the list of `(date, rate, age_limit)` entries sorted newest-first
(`rates.sort(key=item[0], reverse=True)`).  Python's `list.sort` is a stable
sort; `List.insertionSort` is the (unique) stable sort in Lean that is also
kernel-computable, so it models it exactly. -/
def build_fx_lookup (fx_rows : List FxRow) :
    String × String → List (Int × Rat × Int) :=
  let raw := fx_rows.foldl fx_lookup_add (fun _ => [])
  fun k => (raw k).insertionSort (fun a b => b.1 ≤ a.1)

/-- Direct-pair scan of `_resolve_fx_rate` (prices_history.py lines 170-175).
Entries dated after the day are skipped; `if max_age and (asof_dt -
dt_value).days > max_age` skips an entry only when `max_age` is truthy
(nonzero) AND the age exceeds it — so `max_age = 0` disables the age check;
the first surviving entry's rate is returned unconditionally. -/
def scan_direct (asof_dt : Int) : List (Int × Rat × Int) → Option Rat
  | [] => none
  | (dt_value, rate, max_age) :: rest =>
    if asof_dt < dt_value then scan_direct asof_dt rest
    else if max_age ≠ 0 ∧ asof_dt - dt_value > max_age then
      scan_direct asof_dt rest
    else some rate

/-- Inverse-pair scan of `_resolve_fx_rate` (prices_history.py lines 177-184):
same staleness filter; an entry with falsy (zero) rate is passed over and the
scan continues; otherwise the reciprocal is returned. -/
def scan_inverse (asof_dt : Int) : List (Int × Rat × Int) → Option Rat
  | [] => none
  | (dt_value, rate, max_age) :: rest =>
    if asof_dt < dt_value then scan_inverse asof_dt rest
    else if max_age ≠ 0 ∧ asof_dt - dt_value > max_age then
      scan_inverse asof_dt rest
    else if rate ≠ 0 then some (1 / rate) else scan_inverse asof_dt rest

/-- `_resolve_fx_rate` (prices_history.py lines 166-185). -/
def resolve_fx_rate (from_ccy to_ccy : String) (asof_dt : Int)
    (lookup : String × String → List (Int × Rat × Int)) : Option Rat :=
  match scan_direct asof_dt (lookup (from_ccy, to_ccy)) with
  | some rate => some rate
  | none => scan_inverse asof_dt (lookup (to_ccy, from_ccy))

/-- Best-so-far entry of the per-day price dict built by
`_pick_best_price_per_day`. -/
structure BestPrice where
  asof_dt : Int
  asof_ts : Option Int
  price : Rat
  currency : String
  source : Option String
  venue : Option String
  quality_score : Int
deriving DecidableEq, Repr

/-- Lookup in the per-day association list (`best.get(asof_dt)`). -/
def assoc_get (m : List (Int × BestPrice)) (k : Int) : Option BestPrice :=
  match m.find? (fun e => e.1 == k) with
  | none => none
  | some e => some e.2

/-- Update of the per-day association list (`best[asof_dt] = {...}`): replace
in place when the key exists, append otherwise. -/
def assoc_set (m : List (Int × BestPrice)) (k : Int) (v : BestPrice) :
    List (Int × BestPrice) :=
  if (m.find? (fun e => e.1 == k)).isSome then
    m.map (fun e => if e.1 == k then (k, v) else e)
  else m ++ [(k, v)]

/-- The candidate dict built at each replacement site of
`_pick_best_price_per_day`. -/
def mk_best (asof_dt : Int) (asof_ts : Option Int) (price_value : Rat)
    (currency : String) (row : PriceRow) (quality : Int) : BestPrice :=
  { asof_dt := asof_dt
    asof_ts := asof_ts
    price := price_value
    currency := currency
    source := row.source
    venue := row.venue
    quality_score := quality }

/-- One step of `_pick_best_price_per_day` (prices_history.py lines 190-246):
skip rows with an unparseable date, missing price, or missing/empty currency;
quality defaults to 0 (`or 0`); timestamp falls back from `asof_ts` to
`valid_from_ts`; replacement when strictly better quality, or on equal
quality when both have timestamps and the new one is strictly later, or when
only the new row has a timestamp. -/
def pick_best_step (best : List (Int × BestPrice)) (row : PriceRow) :
    List (Int × BestPrice) :=
  match row.asof_dt with
  | none => best
  | some asof_dt =>
    match row.price with
    | none => best
    | some price_value =>
      match row.currency with
      | none => best
      | some currency =>
        if currency = "" then best
        else
          let quality := row.quality_score.getD 0
          let asof_ts :=
            match row.asof_ts with
            | some t => some t
            | none => row.valid_from_ts
          match assoc_get best asof_dt with
          | none =>
              assoc_set best asof_dt
                (mk_best asof_dt asof_ts price_value currency row quality)
          | some current =>
            if current.quality_score < quality then
              assoc_set best asof_dt
                (mk_best asof_dt asof_ts price_value currency row quality)
            else if quality = current.quality_score then
              match asof_ts, current.asof_ts with
              | some t, some ct =>
                  if ct < t then
                    assoc_set best asof_dt
                      (mk_best asof_dt asof_ts price_value currency row quality)
                  else best
              | some _, none =>
                  assoc_set best asof_dt
                    (mk_best asof_dt asof_ts price_value currency row quality)
              | none, _ => best
            else best

/-- `_pick_best_price_per_day` (prices_history.py lines 188-247), the per-day
dict as an association list. -/
def pick_best_price_per_day (rows : List PriceRow) : List (Int × BestPrice) :=
  rows.foldl pick_best_step []

/-- A date partition of a snapshot subtree: the partition date and the rows of
its chosen snapshot file; `none` when the partition yields no usable rows (no
matching file, empty frame, or — for prices — a missing symbol column). -/
structure PricePartition where
  dt : Int
  rows : Option (List PriceRow)
deriving DecidableEq, Repr

/-- Same as `PricePartition` for the fx subtree. -/
structure FxPartition where
  dt : Int
  rows : Option (List FxRow)
deriving DecidableEq, Repr

/-- Newest-first partition ordering of `_latest_dt_dirs` (sorted by date,
reverse). -/
def sort_price_partitions (parts : List PricePartition) : List PricePartition :=
  parts.insertionSort (fun a b => b.dt ≤ a.dt)

/-- Newest-first partition ordering of `_latest_dt_dirs` for fx. -/
def sort_fx_partitions (parts : List FxPartition) : List FxPartition :=
  parts.insertionSort (fun a b => b.dt ≤ a.dt)

/-- `df["symbol"].astype(str)`: a missing symbol cell stringifies to
`"nan"`. -/
def price_row_symbol_str (r : PriceRow) : String := py_upper (r.symbol.getD "nan")

/-- Scan loop of `_load_price_rows` (prices_history.py lines 114-126) over
newest-first partitions: stop at the first partition older than
`window_start`, keep rows matching the uppercased symbol. -/
def collect_price_rows (symbol_upper : String) (window_start : Int) :
    List PricePartition → List PriceRow
  | [] => []
  | p :: rest =>
    if p.dt < window_start then []
    else
      (match p.rows with
       | none => []
       | some rows => rows.filter (fun r => price_row_symbol_str r == symbol_upper))
        ++ collect_price_rows symbol_upper window_start rest

/-- `_load_price_rows` (prices_history.py lines 111-127). -/
def load_price_rows (parts : List PricePartition) (symbol : String)
    (window_start : Int) : List PriceRow :=
  collect_price_rows (py_upper symbol) window_start (sort_price_partitions parts)

/-- Scan loop of `_load_fx_rows` (prices_history.py lines 132-142). -/
def collect_fx_rows (earliest_needed : Int) : List FxPartition → List FxRow
  | [] => []
  | p :: rest =>
    if p.dt < earliest_needed then []
    else
      (match p.rows with
       | none => []
       | some rows => rows) ++ collect_fx_rows earliest_needed rest

/-- `_load_fx_rows` (prices_history.py lines 130-142). -/
def load_fx_rows (parts : List FxPartition) (earliest_needed : Int) :
    List FxRow :=
  collect_fx_rows earliest_needed (sort_fx_partitions parts)

/-- Response point (prices_history.py, `PriceHistoryPoint`). -/
structure PriceHistoryPoint where
  asof_dt : Int
  asof_ts : Option Int := none
  price : Rat
  currency : String
  price_base : Option Rat := none
  source : Option String := none
  venue : Option String := none
  quality_score : Option Int := none
deriving DecidableEq, Repr

/-- Response shape (prices_history.py, `PriceHistoryResponse`). -/
structure PriceHistoryResponse where
  base_currency : String
  window_days : Int
  points : Nat
  missing_fx : Bool := false
  prices : List PriceHistoryPoint
deriving DecidableEq, Repr

/-- `max(1, min(days or DEFAULT_WINDOW_DAYS, MAX_WINDOW_DAYS))`
(prices_history.py line 278); `days` of `None` or falsy 0 falls back to the
default. -/
def clamp_window_days (days : Option Int) : Int :=
  let d :=
    match days with
    | none => DEFAULT_WINDOW_DAYS
    | some d => if d = 0 then DEFAULT_WINDOW_DAYS else d
  max 1 (min d MAX_WINDOW_DAYS)

/-- `(base_currency or DEFAULT_BASE_CURRENCY).upper()` (prices_history.py
line 279). -/
def effective_base_ccy (base_currency : Option String) : String :=
  py_upper
    (match base_currency with
     | none => DEFAULT_BASE_CURRENCY
     | some b => if b = "" then DEFAULT_BASE_CURRENCY else b)

/-- The window-filtered per-day selection of `get_price_history`
(prices_history.py lines 285-287). -/
def per_day_prices (today : Int) (price_parts : List PricePartition)
    (symbol : String) (days : Option Int) : List (Int × BestPrice) :=
  let window_days := clamp_window_days days
  let window_start := today - (window_days - 1)
  (pick_best_price_per_day (load_price_rows price_parts symbol window_start)).filter
    (fun e => window_start ≤ e.1)

/-- The per-request FX lookup of `get_price_history` (prices_history.py lines
300-302): fx partitions are read back to seven days before the earliest
selected price date. -/
def history_fx_lookup (today : Int) (price_parts : List PricePartition)
    (fx_parts : List FxPartition) (symbol : String) (days : Option Int) :
    String × String → List (Int × Rat × Int) :=
  let per_day := per_day_prices today price_parts symbol days
  let earliest_dt := ((per_day.map Prod.fst).min?).getD 0
  build_fx_lookup (load_fx_rows fx_parts (earliest_dt - FX_LOOKBACK_BUFFER_DAYS))

/-- Ascending-date iteration order (`sorted(per_day.keys())`). -/
def sort_items_asc (items : List (Int × BestPrice)) :
    List (Int × BestPrice) :=
  items.insertionSort (fun a b => a.1 ≤ b.1)

/-- The point emitted for one day by the conversion loop of
`get_price_history` (prices_history.py lines 306-331): `price_base` is the
raw price for a base-currency point, the converted price when the FX rate
resolves, and absent otherwise. -/
def point_of (base_ccy : String)
    (lookup : String × String → List (Int × Rat × Int)) (dt_value : Int)
    (row : BestPrice) : PriceHistoryPoint :=
  { asof_dt := dt_value
    asof_ts := row.asof_ts
    price := row.price
    currency := py_upper row.currency
    price_base :=
      if py_upper row.currency = base_ccy then some row.price
      else
        match resolve_fx_rate (py_upper row.currency) base_ccy dt_value lookup with
        | none => none
        | some rate => some (row.price * rate)
    source := row.source
    venue := row.venue
    quality_score := some row.quality_score }

/-- The per-day contribution to `missing_fx` in the same loop: true exactly
when the point is non-base and its FX rate did not resolve. -/
def point_missing (base_ccy : String)
    (lookup : String × String → List (Int × Rat × Int)) (dt_value : Int)
    (row : BestPrice) : Bool :=
  if py_upper row.currency = base_ccy then false
  else (resolve_fx_rate (py_upper row.currency) base_ccy dt_value lookup).isNone

/-- Per-point conversion loop of `get_price_history` (prices_history.py lines
304-331), as a structural recursion returning the point list and the
accumulated `missing_fx` flag (each iteration appends one point and ORs its
failure bit into the flag). -/
def history_points (base_ccy : String)
    (lookup : String × String → List (Int × Rat × Int)) :
    List (Int × BestPrice) → List PriceHistoryPoint × Bool
  | [] => ([], false)
  | (dt_value, row) :: rest =>
    let tail := history_points base_ccy lookup rest
    (point_of base_ccy lookup dt_value row :: tail.1,
     point_missing base_ccy lookup dt_value row || tail.2)

/-- `get_price_history` (prices_history.py lines 274-341).  `today` is an
explicit argument; file loading is abstracted to partition lists; the TTL
cache — a pure optimization with no semantic effect (spec §4.5) — is not
modelled.  The `ValueError` for a blank symbol becomes `Except.error`;
`String.trim` models Python's `str.strip`. -/
def get_price_history (today : Int) (price_parts : List PricePartition)
    (fx_parts : List FxPartition) (symbol : String) (days : Option Int)
    (base_currency : Option String) : Except String PriceHistoryResponse :=
  if str_is_blank symbol then .error "symbol is required"
  else
    let window_days := clamp_window_days days
    let base_ccy := effective_base_ccy base_currency
    let per_day := per_day_prices today price_parts symbol days
    if per_day.isEmpty then
      .ok { base_currency := base_ccy
            window_days := window_days
            points := 0
            missing_fx := false
            prices := [] }
    else
      let lookup := history_fx_lookup today price_parts fx_parts symbol days
      let result := history_points base_ccy lookup (sort_items_asc per_day)
      .ok { base_currency := base_ccy
            window_days := window_days
            points := result.1.length
            missing_fx := result.2
            prices := result.1 }

/-! Embedding of app/valuations.py (the latest-snapshot reader).  The file
system is abstracted to a list of partitions; each partition records what the
reader would observe there.  Errors split into the `SnapshotNotFound` kind —
which the partition loop catches — and any other exception, which
propagates. -/

/-- Raw valuation snapshot row (a dict) as read from a valuations file; cells
hold parsed values, `none` for missing/NaN/unparseable (`_safe_float` /
`_safe_int`); string cells keep `""` distinct from missing because Python's
`or` treats both as falsy. -/
structure VRow where
  symbol : Option String := none
  raw_symbol : Option String := none
  quantity : Option Rat := none
  value_base : Option Rat := none
  unit_price_base : Option Rat := none
  unit_price_native : Option Rat := none
  unit_price_native_ccy : Option String := none
  fx_rate_to_base : Option Rat := none
  account_id : Option String := none
  source : Option String := none
  market : Option String := none
  asset_type : Option String := none
  status : Option String := none
  price_source : Option String := none
  price_quality_score : Option Int := none
  fx_source : Option String := none
deriving DecidableEq, Repr

/-- `record.get("symbol") or record.get("raw_symbol")` followed by the
`if not symbol: continue` guard (valuations.py lines 144-146): `none` when
the combined value is falsy (missing or empty). -/
def chosen_symbol (r : VRow) : Option String :=
  let sym :=
    match r.symbol with
    | some s => if s = "" then r.raw_symbol else some s
    | none => r.raw_symbol
  match sym with
  | none => none
  | some s => if s = "" then none else some s

def PORTFOLIO_PCT_SCALE : Rat := 100

/-- `_compute_portfolio_share` (valuations.py lines 97-102). -/
def compute_portfolio_share (value_base total_value_base : Option Rat) :
    Option Rat :=
  match value_base, total_value_base with
  | some v, some t =>
      if t ≤ 0 then none else some (v / t * PORTFOLIO_PCT_SCALE)
  | _, _ => none

/-- Output row (valuations.py, `ValuationRow`). -/
structure ValuationRow where
  symbol : String
  quantity : Rat
  value_base : Option Rat := none
  unit_price_base : Option Rat := none
  unit_price_native : Option Rat := none
  unit_price_native_ccy : Option String := none
  fx_rate_to_base : Option Rat := none
  account_id : Option String := none
  source : Option String := none
  market : Option String := none
  asset_type : Option String := none
  status : Option String := none
  price_source : Option String := none
  price_quality_score : Option Int := none
  fx_source : Option String := none
  portfolio_share_pct : Option Rat := none
deriving DecidableEq, Repr

/-- The `ValuationRow` built for one kept record (valuations.py lines
148-167); `quantity` falls back to 0 (`or 0.0`). -/
def mk_valuation_row (record : VRow) (sym : String)
    (total_value_base : Option Rat) : ValuationRow :=
  { symbol := sym
    quantity := record.quantity.getD 0
    value_base := record.value_base
    unit_price_base := record.unit_price_base
    unit_price_native := record.unit_price_native
    unit_price_native_ccy := record.unit_price_native_ccy
    fx_rate_to_base := record.fx_rate_to_base
    account_id := record.account_id
    source := record.source
    market := record.market
    asset_type := record.asset_type
    status := record.status
    price_source := record.price_source
    price_quality_score := record.price_quality_score
    fx_source := record.fx_source
    portfolio_share_pct :=
      compute_portfolio_share record.value_base total_value_base }

/-- The sort key of `_build_rows` (valuations.py line 168):
`row.value_base or float("-inf")` — `none` models `-inf`, and a value_base of
0.0 is FALSY in Python, so it also collapses to `-inf`. -/
def row_sort_key (row : ValuationRow) : Option Rat :=
  match row.value_base with
  | none => none
  | some v => if v = 0 then none else some v

/-- Greater-or-equal on sort keys with `none` as bottom; a stable sort by this
relation is exactly `list.sort(key=..., reverse=True)`. -/
def key_ge_b (a b : ValuationRow) : Bool :=
  match row_sort_key a, row_sort_key b with
  | _, none => true
  | none, some _ => false
  | some x, some y => y ≤ x

/-- `_build_rows` (valuations.py lines 141-169): keep records with a truthy
symbol, build rows in order, then sort by `value_base or -inf` descending
(stable). -/
def build_rows (records : List VRow) (total_value_base : Option Rat) :
    List ValuationRow :=
  let rows := records.filterMap (fun record =>
    match chosen_symbol record with
    | none => none
    | some sym => some (mk_valuation_row record sym total_value_base))
  rows.insertionSort (fun a b => key_ge_b a b = true)

/-- Totals (valuations.py, `ValuationTotals`). -/
structure ValuationTotals where
  positions : Nat
  ok_positions : Nat
  total_value_base : Option Rat := none
  base_currency : String := "USD"
deriving DecidableEq, Repr

/-- Response (valuations.py, `LatestValuationResponse`); dates/timestamps as
integers as elsewhere. -/
structure LatestValuationResponse where
  snapshot_dt : Int
  computed_ts : Int
  account_id : String
  base_currency : String := "USD"
  totals : ValuationTotals
  rows : List ValuationRow
  source_file : String
deriving DecidableEq, Repr

/-- Outcome of parsing a header cell (`_parse_date` / `_parse_datetime`):
a parsed value; a string whose ISO parse raises `ValueError` (which the
reader does NOT catch); or a value of an unexpected type, for which the
helpers raise `SnapshotNotFound`. -/
inductive CellParse where
  | ok (value : Int)
  | value_error
  | not_date_like
deriving DecidableEq, Repr

/-- A parsed valuation data frame: its rows plus the column-level facts the
reader consults.  `snapshot_dt_col` / `computed_ts_col` are `none` when the
column is absent, otherwise the parse outcome of the first row's value. -/
structure VFrame where
  rows : List VRow
  snapshot_dt_col : Option CellParse := none
  computed_ts_col : Option CellParse := none
  has_status_col : Bool := true
  has_value_base_col : Bool := true
deriving DecidableEq, Repr

/-- Error kinds of the reader: `SnapshotNotFound` — the only exception the
partition loop catches — versus anything else, which propagates to the
caller. -/
inductive ReadErr where
  | not_found (msg : String)
  | other (msg : String)
deriving DecidableEq, Repr

deriving instance DecidableEq for Except

/-- One observed partition of the valuations subtree: its date, whether the
account sub-directory exists, the picked snapshot file (if any matched), and
the result of reading it — `Except.error` standing for a read exception,
which is never a `SnapshotNotFound`. -/
structure VPartition where
  dt : Int
  has_account_dir : Bool
  file : Option String
  read_result : Except String VFrame
deriving DecidableEq, Repr

/-- `snapshot_dt = _parse_date(df["snapshot_dt"].iloc[0] if "snapshot_dt" in
df else dt_value)` (valuations.py line 186 with `_parse_date`, lines 78-85). -/
def parse_snapshot_dt (cell : Option CellParse) (dt_value : Int) :
    Except ReadErr Int :=
  match cell with
  | none => .ok dt_value
  | some (.ok v) => .ok v
  | some .value_error => .error (.other "Invalid isoformat string")
  | some .not_date_like =>
      .error (.not_found "snapshot_dt missing in valuation file.")

/-- `computed_ts = _parse_datetime(df["computed_ts"].iloc[0] if "computed_ts"
in df else datetime.utcnow())` (valuations.py line 187 with
`_parse_datetime`, lines 88-94); `now_ts` stands for `utcnow()`. -/
def parse_computed_ts (cell : Option CellParse) (now_ts : Int) :
    Except ReadErr Int :=
  match cell with
  | none => .ok now_ts
  | some (.ok v) => .ok v
  | some .value_error => .error (.other "Invalid isoformat string")
  | some .not_date_like =>
      .error (.not_found "computed_ts missing in valuation file.")

/-- The `ValuationTotals` of a frame (valuations.py lines 188-192):
`positions` counts every row; `ok_positions` counts `status == "ok"` rows;
`total_value_base` sums the parseable `value_base` cells of ALL rows
(`pd.to_numeric(..., errors="coerce").sum()` skips NaN and sums the rest). -/
def totals_of (f : VFrame) : ValuationTotals :=
  { positions := f.rows.length
    ok_positions :=
      if f.has_status_col then
        (f.rows.filter (fun r => r.status == some "ok")).length
      else 0
    total_value_base :=
      if f.has_value_base_col then
        some ((f.rows.filterMap (fun r => r.value_base)).sum)
      else none }

/-- The body of the per-partition `try` block of
`get_latest_valuation_snapshot` (valuations.py lines 179-201): missing
account dir, no snapshot files, an empty frame, or a `not_date_like` header
cell raise `SnapshotNotFound`; a failed read or a `value_error` header cell
raise a different exception; otherwise the response is assembled. -/
def process_partition (account_id : String) (now_ts : Int) (p : VPartition) :
    Except ReadErr LatestValuationResponse :=
  if ¬ p.has_account_dir then
    .error (.not_found ("No valuations for account '" ++ account_id ++ "' in dt="
      ++ toString p.dt ++ "."))
  else
    match p.file with
    | none =>
        .error (.not_found ("No valuation files under dt=" ++ toString p.dt
          ++ "/account=" ++ account_id ++ "."))
    | some snapshot_path =>
      match p.read_result with
      | .error msg => .error (.other msg)
      | .ok df =>
        if df.rows.isEmpty then
          .error (.not_found ("Valuation file " ++ snapshot_path
            ++ " is empty."))
        else
          match parse_snapshot_dt df.snapshot_dt_col p.dt with
          | .error e => .error e
          | .ok snapshot_dt =>
            match parse_computed_ts df.computed_ts_col now_ts with
            | .error e => .error e
            | .ok computed_ts =>
              let totals := totals_of df
              .ok { snapshot_dt := snapshot_dt
                    computed_ts := computed_ts
                    account_id := account_id
                    totals := totals
                    rows := build_rows df.rows totals.total_value_base
                    source_file := snapshot_path }

/-- The partition loop of `get_latest_valuation_snapshot` (valuations.py
lines 177-205): `SnapshotNotFound` failures are recorded and the scan
continues; any other exception propagates; exhaustion raises
`SnapshotNotFound` with the last recorded message, or a generic one if none
was recorded. -/
def snapshot_loop (account_id : String) (now_ts : Int) :
    List VPartition → Option String → Except ReadErr LatestValuationResponse
  | [], last_error =>
      .error (.not_found
        (match last_error with
         | some msg => msg
         | none => "Unable to load valuation snapshot."))
  | p :: rest, _ =>
    match process_partition account_id now_ts p with
    | .ok resp => .ok resp
    | .error (.not_found msg) => snapshot_loop account_id now_ts rest (some msg)
    | .error (.other msg) => .error (.other msg)

/-- Newest-first ordering of `_latest_dt_dirs` for the valuations subtree. -/
def sort_v_partitions (parts : List VPartition) : List VPartition :=
  parts.insertionSort (fun a b => b.dt ≤ a.dt)

/-- `get_latest_valuation_snapshot` (valuations.py lines 172-205). -/
def get_latest_valuation_snapshot (account_id : String) (now_ts : Int)
    (parts : List VPartition) : Except ReadErr LatestValuationResponse :=
  let partitions := sort_v_partitions parts
  if partitions.isEmpty then
    .error (.not_found "No valuation snapshots found.")
  else snapshot_loop account_id now_ts partitions none

/-- Helper for C3: in every branch of the per-position loop, `value_base` is
present exactly on the `ok` branch. -/
theorem value_position_value_base_iff_ok (pl : String → Option Price)
    (fl : String × String → Option FXRate) (base : String) (snap ts : Int)
    (pos : Position) :
    ((value_position pl fl base snap ts pos).value_base.isSome = true
      ↔ (value_position pl fl base snap ts pos).status = VStatus.ok) := by
  unfold value_position
  cases hpl : pl pos.symbol with
  | none => simp [missing_price_valuation, base_valuation]
  | some price =>
    by_cases hc : price.currency ≠ base
    · simp only [if_pos hc]
      cases hdir : fl (price.currency, base) with
      | some direct => simp [ok_valuation, base_valuation]
      | none =>
        cases hinv : fl (base, price.currency) with
        | some inverse =>
          by_cases hr : inverse.rate ≠ 0
          · simp [if_pos hr, ok_valuation, base_valuation]
          · simp [if_neg hr, missing_fx_valuation, base_valuation]
        | none => simp [missing_fx_valuation, base_valuation]
    · simp [if_neg hc, ok_valuation, base_valuation]

/-- C3: for every list of Valuations returned by `compute_valuations`, each
returned row has `value_base` present (non-none) if and only if its status is
`ok`. -/
theorem c3_value_base_iff_status_ok (positions : List Position)
    (prices : List Price) (fx_rates : List FXRate) (base_currency : String)
    (snapshot_dt computed_ts : Int) (v : Valuation)
    (hv : v ∈ compute_valuations positions prices fx_rates base_currency
      snapshot_dt computed_ts) :
    (v.value_base.isSome = true ↔ v.status = VStatus.ok) := by
  unfold compute_valuations at hv
  simp only [List.mem_map] at hv
  obtain ⟨pos, _, rfl⟩ := hv
  exact value_position_value_base_iff_ok _ _ _ _ _ _

/-- Witness for C3 at a concrete input: a single position with no matching
price yields a `missing_input` row whose `value_base` is absent. -/
theorem c3_value_base_iff_status_ok_witness :
    ((({ snapshot_dt := 0
         computed_ts := 0
         account_id := "acc-1"
         source := "iol"
         symbol := "ACME"
         quantity := 1
         status := VStatus.missing_input } : Valuation)).value_base.isSome = true
      ↔ (({ snapshot_dt := 0
            computed_ts := 0
            account_id := "acc-1"
            source := "iol"
            symbol := "ACME"
            quantity := 1
            status := VStatus.missing_input } : Valuation)).status = VStatus.ok) :=
  c3_value_base_iff_status_ok
    [{ snapshot_dt := 0
       snapshot_ts := 0
       account_id := "acc-1"
       source := "iol"
       symbol := "ACME"
       quantity := 1 }] [] [] "USD" 0 0 _
    (by decide)

/-- C1 (evaluation at the failing input): with two `Price` rows for the same
symbol and equal `quality_score`, the price lookup of `compute_valuations`
retains the row encountered LAST, not first: the `>=` comparison at
valuation/models.py line 147 lets a later equal-quality row replace the stored
one, contradicting the source's own comment ("otherwise keep the first seen")
and the claim. -/
theorem c1_equal_quality_tie_keeps_last_row :
    build_price_lookup
      [{ asof_dt := 0
         symbol := "ACME"
         price_type := "close"
         price := 1
         currency := "USD"
         source := "src_a"
         quality_score := 80 },
       { asof_dt := 0
         symbol := "ACME"
         price_type := "close"
         price := 2
         currency := "USD"
         source := "src_b"
         quality_score := 80 }] "ACME"
      = some
        { asof_dt := 0
          symbol := "ACME"
          price_type := "close"
          price := 2
          currency := "USD"
          source := "src_b"
          quality_score := 80 } := by
  decide

/-- C5: given exactly two Price rows for the same symbol with quality scores
70 and 90, the quality-90 row is the one retained in the price lookup of
`compute_valuations`, for both orderings of the two rows. -/
theorem c5_quality_90_wins (p q : Price) (s : String) (hp : p.symbol = s)
    (hq : q.symbol = s) (h70 : p.quality_score = 70)
    (h90 : q.quality_score = 90) :
    build_price_lookup [p, q] s = some q
      ∧ build_price_lookup [q, p] s = some q := by
  subst hp
  constructor
  · simp [build_price_lookup, price_lookup_step, hq, h70, h90]
  · simp [build_price_lookup, price_lookup_step, hq, h70, h90]

/-- Witness for C5 at concrete rows: applies the theorem to a quality-70 and a
quality-90 row for symbol `"ACME"`. -/
theorem c5_quality_90_wins_witness :
    build_price_lookup
        [{ asof_dt := 0
           symbol := "ACME"
           price_type := "close"
           price := 100
           currency := "USD"
           source := "low_quality"
           quality_score := 70 },
         { asof_dt := 0
           symbol := "ACME"
           price_type := "close"
           price := 105
           currency := "USD"
           source := "better"
           quality_score := 90 }] "ACME"
      = some
        { asof_dt := 0
          symbol := "ACME"
          price_type := "close"
          price := 105
          currency := "USD"
          source := "better"
          quality_score := 90 }
    ∧ build_price_lookup
        [{ asof_dt := 0
           symbol := "ACME"
           price_type := "close"
           price := 105
           currency := "USD"
           source := "better"
           quality_score := 90 },
         { asof_dt := 0
           symbol := "ACME"
           price_type := "close"
           price := 100
           currency := "USD"
           source := "low_quality"
           quality_score := 70 }] "ACME"
      = some
        { asof_dt := 0
          symbol := "ACME"
          price_type := "close"
          price := 105
          currency := "USD"
          source := "better"
          quality_score := 90 } :=
  c5_quality_90_wins _ _ "ACME" rfl rfl rfl rfl

/-- C4: when the matched price is quoted in a currency A different from the
base B, the FX lookup has no (A, B) entry, and it has a (B, A) entry with
nonzero rate r, the emitted Valuation carries `fx_rate_to_base = 1/r` and the
inverse record's source.  (In rationals, `1/1000 = 0.001` exactly; see the
witness.) -/
theorem c4_fx_inversion (pos : Position) (prices : List Price)
    (fx_rates : List FXRate) (base : String) (snap ts : Int) (price : Price)
    (inverse : FXRate) (hp : build_price_lookup prices pos.symbol = some price)
    (hne : price.currency ≠ base)
    (hdirect : build_fx_lookup_cv fx_rates (price.currency, base) = none)
    (hinv : build_fx_lookup_cv fx_rates (base, price.currency) = some inverse)
    (hr : inverse.rate ≠ 0) :
    (compute_valuations [pos] prices fx_rates base snap ts).map
        (fun v => (v.fx_rate_to_base, v.fx_source))
      = [(some (1 / inverse.rate), some inverse.source)] := by
  simp [compute_valuations, value_position, hp, hne, hdirect, hinv, hr,
    ok_valuation, base_valuation]

/-- Witness for C4 at the spec's concrete scenario: only an FXRate USD→ARS
with rate 1000 exists; an ARS-priced position valued in base USD gets
`fx_rate_to_base = 1/1000` (that is, 0.001) and the inverse record's
source. -/
theorem c4_fx_inversion_witness :
    (compute_valuations
        [{ snapshot_dt := 0
           snapshot_ts := 0
           account_id := "acc-1"
           source := "iol"
           symbol := "GGAL"
           quantity := 2 }]
        [{ asof_dt := 0
           symbol := "GGAL"
           price_type := "close"
           price := 5000
           currency := "ARS"
           source := "iol_api"
           quality_score := 90 }]
        [{ asof_dt := 0
           from_ccy := "USD"
           to_ccy := "ARS"
           rate := 1000
           source := "mep_scraper" }] "USD" 0 0).map
        (fun v => (v.fx_rate_to_base, v.fx_source))
      = [(some ((1 : Rat) / 1000), some "mep_scraper")] :=
  c4_fx_inversion _ _ _ _ _ _
    { asof_dt := 0
      symbol := "GGAL"
      price_type := "close"
      price := 5000
      currency := "ARS"
      source := "iol_api"
      quality_score := 90 }
    { asof_dt := 0
      from_ccy := "USD"
      to_ccy := "ARS"
      rate := 1000
      source := "mep_scraper" }
    (by decide) (by decide) (by decide) (by decide) (by decide)

/-- Helper for C2: a rate returned by the direct-pair scan comes from an entry
dated on or before the day whose age check passes, where the check passes
vacuously when `max_age = 0`. -/
theorem scan_direct_sound (asof_dt : Int) (l : List (Int × Rat × Int)) (r : Rat)
    (h : scan_direct asof_dt l = some r) :
    ∃ e ∈ l, e.1 ≤ asof_dt ∧ (e.2.2 = 0 ∨ asof_dt - e.1 ≤ e.2.2)
      ∧ e.2.1 = r := by
  induction l with
  | nil => simp [scan_direct] at h
  | cons hd tl ih =>
    obtain ⟨dt_value, rate, max_age⟩ := hd
    simp only [scan_direct] at h
    by_cases h1 : asof_dt < dt_value
    · rw [if_pos h1] at h
      obtain ⟨e, he, hc⟩ := ih h
      exact ⟨e, List.mem_cons_of_mem _ he, hc⟩
    · rw [if_neg h1] at h
      by_cases h2 : max_age ≠ 0 ∧ asof_dt - dt_value > max_age
      · rw [if_pos h2] at h
        obtain ⟨e, he, hc⟩ := ih h
        exact ⟨e, List.mem_cons_of_mem _ he, hc⟩
      · rw [if_neg h2] at h
        refine ⟨(dt_value, rate, max_age), List.mem_cons_self _ _, ?_, ?_,
          Option.some.inj h⟩
        · show dt_value ≤ asof_dt
          omega
        · show max_age = 0 ∨ asof_dt - dt_value ≤ max_age
          omega

/-- Helper for C2: a rate returned by the inverse-pair scan is the reciprocal
of a nonzero-rate entry under the same age rule. -/
theorem scan_inverse_sound (asof_dt : Int) (l : List (Int × Rat × Int))
    (r : Rat) (h : scan_inverse asof_dt l = some r) :
    ∃ e ∈ l, e.1 ≤ asof_dt ∧ (e.2.2 = 0 ∨ asof_dt - e.1 ≤ e.2.2)
      ∧ e.2.1 ≠ 0 ∧ r = 1 / e.2.1 := by
  induction l with
  | nil => simp [scan_inverse] at h
  | cons hd tl ih =>
    obtain ⟨dt_value, rate, max_age⟩ := hd
    simp only [scan_inverse] at h
    by_cases h1 : asof_dt < dt_value
    · rw [if_pos h1] at h
      obtain ⟨e, he, hc⟩ := ih h
      exact ⟨e, List.mem_cons_of_mem _ he, hc⟩
    · rw [if_neg h1] at h
      by_cases h2 : max_age ≠ 0 ∧ asof_dt - dt_value > max_age
      · rw [if_pos h2] at h
        obtain ⟨e, he, hc⟩ := ih h
        exact ⟨e, List.mem_cons_of_mem _ he, hc⟩
      · rw [if_neg h2] at h
        by_cases h3 : rate ≠ 0
        · rw [if_pos h3] at h
          refine ⟨(dt_value, rate, max_age), List.mem_cons_self _ _, ?_, ?_, h3,
            (Option.some.inj h).symm⟩
          · show dt_value ≤ asof_dt
            omega
          · show max_age = 0 ∨ asof_dt - dt_value ≤ max_age
            omega
        · rw [if_neg h3] at h
          obtain ⟨e, he, hc⟩ := ih h
          exact ⟨e, List.mem_cons_of_mem _ he, hc⟩

/-- C2 (amended): in the per-day FX resolution of `get_price_history`, a
resolved rate always comes from an entry dated on or before the day that
passes the staleness test in which `max_age_days = 0` means NO age limit (the
falsy 0 disables the check): either a direct entry — with `max_age_days = 0`
or age `≤ max_age_days` — whose rate is returned, or, failing that, an
inverse entry under the same rule with nonzero rate, returned as its
reciprocal. -/
theorem c2_fx_age_rule (fx_rows : List FxRow) (from_ccy to_ccy : String)
    (asof_dt : Int) (r : Rat)
    (h : resolve_fx_rate from_ccy to_ccy asof_dt (build_fx_lookup fx_rows)
      = some r) :
    (∃ e ∈ build_fx_lookup fx_rows (from_ccy, to_ccy),
        e.1 ≤ asof_dt ∧ (e.2.2 = 0 ∨ asof_dt - e.1 ≤ e.2.2) ∧ e.2.1 = r)
    ∨ (∃ e ∈ build_fx_lookup fx_rows (to_ccy, from_ccy),
        e.1 ≤ asof_dt ∧ (e.2.2 = 0 ∨ asof_dt - e.1 ≤ e.2.2) ∧ e.2.1 ≠ 0
          ∧ r = 1 / e.2.1) := by
  cases hd : scan_direct asof_dt (build_fx_lookup fx_rows (from_ccy, to_ccy)) with
  | some rate =>
    have hr : r = rate := by
      unfold resolve_fx_rate at h
      rw [hd] at h
      exact (Option.some.inj h).symm
    subst hr
    exact Or.inl (scan_direct_sound _ _ _ hd)
  | none =>
    have hi : scan_inverse asof_dt
        (build_fx_lookup fx_rows (to_ccy, from_ccy)) = some r := by
      unfold resolve_fx_rate at h
      rw [hd] at h
      exact h
    exact Or.inr (scan_inverse_sound _ _ _ hi)

/-- C2 counterexample: an FX entry five days old with `max_age_days = 0`
resolves to its rate — the falsy 0 disables the age check entirely — although
the claim says a 0-max-age entry is usable only on the very same day. -/
theorem c2_zero_max_age_resolves_stale :
    resolve_fx_rate "ARS" "USD" 5
        (build_fx_lookup
          [{ asof_dt := some 0
             from_ccy := some "ARS"
             to_ccy := some "USD"
             rate := some 2
             max_age_days := some 0 }])
      = some 2 := by
  decide

/-- Witness for C2 (amended) at a concrete input: the stale zero-max-age
direct entry is the justifying entry. -/
theorem c2_fx_age_rule_witness :
    (∃ e ∈ build_fx_lookup
        [{ asof_dt := some 0
           from_ccy := some "ARS"
           to_ccy := some "USD"
           rate := some 2
           max_age_days := some 0 }] ("ARS", "USD"),
        e.1 ≤ 5 ∧ (e.2.2 = 0 ∨ 5 - e.1 ≤ e.2.2) ∧ e.2.1 = 2)
    ∨ (∃ e ∈ build_fx_lookup
        [{ asof_dt := some 0
           from_ccy := some "ARS"
           to_ccy := some "USD"
           rate := some 2
           max_age_days := some 0 }] ("USD", "ARS"),
        e.1 ≤ 5 ∧ (e.2.2 = 0 ∨ 5 - e.1 ≤ e.2.2) ∧ e.2.1 ≠ 0
          ∧ (2 : Rat) = 1 / e.2.1) :=
  c2_fx_age_rule _ "ARS" "USD" 5 2 (by decide)

/-- Helper for C8: the per-day failure bit equals the per-point failure
predicate evaluated on the emitted point. -/
theorem point_missing_eq (base_ccy : String)
    (lookup : String × String → List (Int × Rat × Int)) (dt_value : Int)
    (row : BestPrice) :
    point_missing base_ccy lookup dt_value row
      = ((point_of base_ccy lookup dt_value row).currency != base_ccy
          && (resolve_fx_rate (point_of base_ccy lookup dt_value row).currency
                base_ccy (point_of base_ccy lookup dt_value row).asof_dt
                lookup).isNone) := by
  by_cases h : py_upper row.currency = base_ccy
  · simp [point_of, point_missing, h]
  · simp [point_of, point_missing, h]

/-- Helper for C8: along the conversion loop, `price_base` is absent for
every non-base point whose FX failed to resolve, and the flag is the OR of
exactly those failures. -/
theorem history_points_spec (base_ccy : String)
    (lookup : String × String → List (Int × Rat × Int))
    (items : List (Int × BestPrice)) :
    (∀ pt ∈ (history_points base_ccy lookup items).1,
        (pt.currency ≠ base_ccy ∧
          resolve_fx_rate pt.currency base_ccy pt.asof_dt lookup = none) →
          pt.price_base = none)
    ∧ (history_points base_ccy lookup items).2
        = (history_points base_ccy lookup items).1.any
            (fun pt => pt.currency != base_ccy
              && (resolve_fx_rate pt.currency base_ccy pt.asof_dt lookup).isNone) := by
  induction items with
  | nil => simp [history_points]
  | cons hd tl ih =>
    obtain ⟨dt_value, row⟩ := hd
    obtain ⟨ih1, ih2⟩ := ih
    constructor
    · intro pt hpt hcond
      simp only [history_points] at hpt
      rcases List.mem_cons.mp hpt with rfl | htl
      · obtain ⟨hne, hres⟩ := hcond
        simp only [point_of] at hne hres ⊢
        rw [if_neg hne, hres]
      · exact ih1 pt htl hcond
    · simp only [history_points, List.any_cons]
      rw [point_missing_eq, ih2]

/-- C8: for every successful `get_price_history` response, a point whose
currency differs from the base currency and whose FX does not resolve
(neither direct nor inverse, via `resolve_fx_rate`) has `price_base` absent,
and `missing_fx` equals the boolean OR over all points of "this point's FX
failed to resolve". -/
theorem c8_missing_fx_flag (today : Int) (price_parts : List PricePartition)
    (fx_parts : List FxPartition) (symbol : String) (days : Option Int)
    (base_currency : Option String) (resp : PriceHistoryResponse)
    (h : get_price_history today price_parts fx_parts symbol days base_currency
      = .ok resp) :
    (∀ pt ∈ resp.prices,
        (pt.currency ≠ effective_base_ccy base_currency ∧
          resolve_fx_rate pt.currency (effective_base_ccy base_currency)
            pt.asof_dt
            (history_fx_lookup today price_parts fx_parts symbol days) = none) →
          pt.price_base = none)
    ∧ resp.missing_fx
        = resp.prices.any (fun pt =>
            pt.currency != effective_base_ccy base_currency
              && (resolve_fx_rate pt.currency (effective_base_ccy base_currency)
                    pt.asof_dt
                    (history_fx_lookup today price_parts fx_parts symbol
                      days)).isNone) := by
  unfold get_price_history at h
  by_cases hsym : str_is_blank symbol = true
  · rw [if_pos hsym] at h
    simp at h
  · rw [if_neg hsym] at h
    by_cases hempty : (per_day_prices today price_parts symbol days).isEmpty = true
    · rw [if_pos hempty] at h
      injection h with h
      subst h
      simp
    · rw [if_neg hempty] at h
      injection h with h
      subst h
      exact history_points_spec _ _ _

/-- C9: a blank (empty or all-whitespace) symbol is rejected with a validation
error, independently of any data; a non-blank symbol whose window holds no
price rows yields a valid empty response — zero points, empty list,
`missing_fx = false` — rather than an error. -/
theorem c9_blank_symbol_vs_empty_window (today : Int)
    (price_parts : List PricePartition) (fx_parts : List FxPartition)
    (symbol : String) (days : Option Int) (base_currency : Option String) :
    (str_is_blank symbol = true →
      get_price_history today price_parts fx_parts symbol days base_currency
        = .error "symbol is required")
    ∧ (str_is_blank symbol = false →
      per_day_prices today price_parts symbol days = [] →
      get_price_history today price_parts fx_parts symbol days base_currency
        = .ok { base_currency := effective_base_ccy base_currency
                window_days := clamp_window_days days
                points := 0
                missing_fx := false
                prices := [] }) := by
  constructor
  · intro hblank
    unfold get_price_history
    rw [if_pos hblank]
  · intro hsym hpd
    unfold get_price_history
    rw [if_neg (by simp [hsym])]
    simp [hpd]

/-- Witness for C9: a whitespace-only symbol errors; symbol `"NFX"` with no
partitions at all yields the empty success response. -/
theorem c9_blank_symbol_vs_empty_window_witness :
    get_price_history 0 [] [] "   " none none = .error "symbol is required"
    ∧ get_price_history 0 [] [] "NFX" none none
        = .ok { base_currency := "USD"
                window_days := 30
                points := 0
                missing_fx := false
                prices := [] } :=
  ⟨(c9_blank_symbol_vs_empty_window 0 [] [] "   " none none).1 (by decide),
   (c9_blank_symbol_vs_empty_window 0 [] [] "NFX" none none).2 (by decide)
     (by decide)⟩

/-- Witness for C8 at a concrete input: one ARS price with no FX data at all
gives a response with `price_base` absent and `missing_fx = true`. -/
theorem c8_missing_fx_flag_witness :
    (∀ pt ∈ ({ base_currency := "USD"
               window_days := 5
               points := 1
               missing_fx := true
               prices := [{ asof_dt := 10
                            asof_ts := none
                            price := 5000
                            currency := "ARS"
                            price_base := none
                            source := some "missing_fx"
                            venue := some "TEST"
                            quality_score := some 50 }] } :
          PriceHistoryResponse).prices,
        (pt.currency ≠ effective_base_ccy (some "USD") ∧
          resolve_fx_rate pt.currency (effective_base_ccy (some "USD"))
            pt.asof_dt
            (history_fx_lookup 10
              [{ dt := 10
                 rows := some [{ asof_dt := some 10
                                 symbol := some "NFX"
                                 price := some 5000
                                 currency := some "ARS"
                                 venue := some "TEST"
                                 source := some "missing_fx"
                                 quality_score := some 50 }] }] [] "NFX"
              (some 5)) = none) →
          pt.price_base = none)
    ∧ ({ base_currency := "USD"
         window_days := 5
         points := 1
         missing_fx := true
         prices := [{ asof_dt := 10
                      asof_ts := none
                      price := 5000
                      currency := "ARS"
                      price_base := none
                      source := some "missing_fx"
                      venue := some "TEST"
                      quality_score := some 50 }] } :
          PriceHistoryResponse).missing_fx
        = ({ base_currency := "USD"
             window_days := 5
             points := 1
             missing_fx := true
             prices := [{ asof_dt := 10
                          asof_ts := none
                          price := 5000
                          currency := "ARS"
                          price_base := none
                          source := some "missing_fx"
                          venue := some "TEST"
                          quality_score := some 50 }] } :
            PriceHistoryResponse).prices.any (fun pt =>
            pt.currency != effective_base_ccy (some "USD")
              && (resolve_fx_rate pt.currency (effective_base_ccy (some "USD"))
                    pt.asof_dt
                    (history_fx_lookup 10
                      [{ dt := 10
                         rows := some [{ asof_dt := some 10
                                         symbol := some "NFX"
                                         price := some 5000
                                         currency := some "ARS"
                                         venue := some "TEST"
                                         source := some "missing_fx"
                                         quality_score := some 50 }] }] [] "NFX"
                      (some 5))).isNone) :=
  c8_missing_fx_flag 10
    [{ dt := 10
       rows := some [{ asof_dt := some 10
                       symbol := some "NFX"
                       price := some 5000
                       currency := some "ARS"
                       venue := some "TEST"
                       source := some "missing_fx"
                       quality_score := some 50 }] }] [] "NFX" (some 5)
    (some "USD") _ rfl

/-- Helper for C6: the descending key order with bottoms is total. -/
theorem key_ge_b_total (a b : ValuationRow) :
    key_ge_b a b = true ∨ key_ge_b b a = true := by
  unfold key_ge_b
  cases row_sort_key a with
  | none =>
    cases row_sort_key b with
    | none => simp
    | some y => simp
  | some x =>
    cases row_sort_key b with
    | none => simp
    | some y => simpa using le_total y x

/-- Helper for C6: the descending key order with bottoms is transitive. -/
theorem key_ge_b_trans (a b c : ValuationRow) (hab : key_ge_b a b = true)
    (hbc : key_ge_b b c = true) : key_ge_b a c = true := by
  unfold key_ge_b at *
  cases ka : row_sort_key a <;> cases kb : row_sort_key b <;>
    cases kc : row_sort_key c <;> simp_all
  exact le_trans hbc hab

/-- Helper for C6: `_build_rows` output is sorted by the Python sort key
(descending `value_base` with null and 0 as bottom). -/
theorem build_rows_sorted (records : List VRow) (tvb : Option Rat) :
    (build_rows records tvb).Sorted (fun a b => key_ge_b a b = true) := by
  unfold build_rows
  haveI : IsTotal ValuationRow (fun a b => key_ge_b a b = true) :=
    ⟨key_ge_b_total⟩
  haveI : IsTrans ValuationRow (fun a b => key_ge_b a b = true) :=
    ⟨key_ge_b_trans⟩
  exact List.sorted_insertionSort _ _

/-- Helper: unfolding equation of the partition loop on a successful
partition. -/
theorem snapshot_loop_cons_ok (account_id : String) (now_ts : Int)
    (p : VPartition) (rest : List VPartition) (last : Option String)
    (resp : LatestValuationResponse)
    (hp : process_partition account_id now_ts p = .ok resp) :
    snapshot_loop account_id now_ts (p :: rest) last = .ok resp := by
  simp [snapshot_loop, hp]

/-- Helper: unfolding equation of the partition loop on a `SnapshotNotFound`
partition — record the message, continue older. -/
theorem snapshot_loop_cons_nf (account_id : String) (now_ts : Int)
    (p : VPartition) (rest : List VPartition) (last : Option String)
    (msg : String)
    (hp : process_partition account_id now_ts p = .error (.not_found msg)) :
    snapshot_loop account_id now_ts (p :: rest) last
      = snapshot_loop account_id now_ts rest (some msg) := by
  simp [snapshot_loop, hp]

/-- Helper: unfolding equation of the partition loop on a partition whose
processing raised a non-`SnapshotNotFound` error — it propagates at once. -/
theorem snapshot_loop_cons_other (account_id : String) (now_ts : Int)
    (p : VPartition) (rest : List VPartition) (last : Option String)
    (msg : String)
    (hp : process_partition account_id now_ts p = .error (.other msg)) :
    snapshot_loop account_id now_ts (p :: rest) last = .error (.other msg) := by
  simp [snapshot_loop, hp]

/-- Helper for C6: a successful loop result comes from some partition's
successful processing. -/
theorem snapshot_loop_ok_source (account_id : String) (now_ts : Int)
    (parts : List VPartition) (last : Option String)
    (resp : LatestValuationResponse)
    (h : snapshot_loop account_id now_ts parts last = .ok resp) :
    ∃ p ∈ parts, process_partition account_id now_ts p = .ok resp := by
  induction parts generalizing last with
  | nil => simp [snapshot_loop] at h
  | cons p rest ih =>
    cases hp : process_partition account_id now_ts p with
    | ok r =>
      rw [snapshot_loop_cons_ok _ _ _ _ _ _ hp] at h
      injection h with h
      subst h
      exact ⟨p, List.mem_cons_self _ _, hp⟩
    | error e =>
      cases e with
      | not_found msg =>
        rw [snapshot_loop_cons_nf _ _ _ _ _ _ hp] at h
        obtain ⟨q, hq, hqq⟩ := ih _ h
        exact ⟨q, List.mem_cons_of_mem _ hq, hqq⟩
      | other msg =>
        rw [snapshot_loop_cons_other _ _ _ _ _ _ hp] at h
        simp at h

/-- Helper for C6 and C7: a successful partition yields the response built
from its frame. -/
theorem process_partition_ok_rows (account_id : String) (now_ts : Int)
    (p : VPartition) (resp : LatestValuationResponse)
    (h : process_partition account_id now_ts p = .ok resp) :
    ∃ df : VFrame,
      resp.rows = build_rows df.rows (totals_of df).total_value_base := by
  cases hacct : p.has_account_dir with
  | false => simp [process_partition, hacct] at h
  | true =>
    cases hfile : p.file with
    | none => simp [process_partition, hacct, hfile] at h
    | some path =>
      cases hread : p.read_result with
      | error msg => simp [process_partition, hacct, hfile, hread] at h
      | ok df =>
        cases hne : df.rows.isEmpty with
        | true => simp [process_partition, hacct, hfile, hread, hne] at h
        | false =>
          cases hsd : parse_snapshot_dt df.snapshot_dt_col p.dt with
          | error e =>
            simp [process_partition, hacct, hfile, hread, hne, hsd] at h
          | ok sd =>
            cases hct : parse_computed_ts df.computed_ts_col now_ts with
            | error e =>
              simp [process_partition, hacct, hfile, hread, hne, hsd, hct] at h
            | ok ct =>
              have hcalc : process_partition account_id now_ts p
                  = .ok { snapshot_dt := sd
                          computed_ts := ct
                          account_id := account_id
                          totals := totals_of df
                          rows := build_rows df.rows
                            (totals_of df).total_value_base
                          source_file := path } := by
                simp [process_partition, hacct, hfile, hread, hne, hsd, hct]
              rw [hcalc] at h
              injection h with h
              subst h
              exact ⟨df, rfl⟩

/-- C6 (amended): for every successful `get_latest_valuation_snapshot`
response, the rows are sorted descending by the key `value_base or -inf`, in
which BOTH null and zero `value_base` collapse to the bottom value (0.0 is
falsy in Python), so rows with null or zero `value_base` sit together at the
end in input order, rather than zero-valued rows preceding null ones. -/
theorem c6_rows_sorted_desc_null_or_zero_last (account_id : String)
    (now_ts : Int) (parts : List VPartition)
    (resp : LatestValuationResponse)
    (h : get_latest_valuation_snapshot account_id now_ts parts = .ok resp) :
    resp.rows.Sorted (fun a b => key_ge_b a b = true) := by
  unfold get_latest_valuation_snapshot at h
  by_cases hemp : (sort_v_partitions parts).isEmpty = true
  · rw [if_pos hemp] at h
    simp at h
  · rw [if_neg hemp] at h
    obtain ⟨p, _, hpp⟩ := snapshot_loop_ok_source _ _ _ _ _ h
    obtain ⟨df, hrows⟩ := process_partition_ok_rows _ _ _ _ hpp
    rw [hrows]
    exact build_rows_sorted _ _

/-- C6 counterexample: a file holding a null-`value_base` row before a
zero-`value_base` row is returned in that same order — the null row placed
BEFORE the non-null (zero) row, because `row.value_base or float("-inf")`
maps 0.0 to the same bottom key as null and the sort is stable. -/
theorem c6_null_before_zero_row :
    (get_latest_valuation_snapshot "acc-1" 0
        [{ dt := 3
           has_account_dir := true
           file := some "f"
           read_result := .ok { rows :=
             [{ symbol := some "A", value_base := none },
              { symbol := some "B", value_base := some 0 }] } }]).map
        (fun resp => resp.rows.map (fun row => (row.symbol, row.value_base)))
      = .ok [("A", none), ("B", some 0)] := rfl

/-- Witness for C6 (amended) at a concrete successful read (the frame lacks a
value_base column, so totals and shares are null). -/
theorem c6_rows_sorted_desc_null_or_zero_last_witness :
    List.Sorted (fun a b => key_ge_b a b = true)
      [{ symbol := "AAPL"
         quantity := 1
         value_base := some 10
         status := some "ok" }] :=
  c6_rows_sorted_desc_null_or_zero_last "acc-1" 0
    [{ dt := 3
       has_account_dir := true
       file := some "f"
       read_result := .ok
         { rows := [{ symbol := some "AAPL"
                      quantity := some 1
                      value_base := some 10
                      status := some "ok" }]
           has_value_base_col := false } }]
    { snapshot_dt := 3
      computed_ts := 0
      account_id := "acc-1"
      totals := { positions := 1
                  ok_positions := 1
                  total_value_base := none }
      rows := [{ symbol := "AAPL"
                 quantity := 1
                 value_base := some 10
                 status := some "ok" }]
      source_file := "f" } (by decide)

/-- Helper for C7: the loop skips any newest-first prefix of
`SnapshotNotFound` failures and returns the first successful partition's
response. -/
theorem snapshot_loop_skips (account_id : String) (now_ts : Int)
    (p : VPartition) (ps₂ : List VPartition) (resp : LatestValuationResponse)
    (hp : process_partition account_id now_ts p = .ok resp) :
    ∀ (ps₁ : List VPartition) (last : Option String),
      (∀ q ∈ ps₁, ∃ msg,
        process_partition account_id now_ts q = .error (.not_found msg)) →
      snapshot_loop account_id now_ts (ps₁ ++ p :: ps₂) last = .ok resp
  | [], last, _ => by
      simpa using snapshot_loop_cons_ok account_id now_ts p ps₂ last resp hp
  | q :: qs, last, hfail => by
      obtain ⟨msg, hq⟩ := hfail q (List.mem_cons_self _ _)
      rw [List.cons_append, snapshot_loop_cons_nf _ _ _ _ _ _ hq]
      exact snapshot_loop_skips account_id now_ts p ps₂ resp hp qs (some msg)
        (fun q' hq' => hfail q' (List.mem_cons_of_mem _ hq'))

/-- Helper for C7: when every partition fails with `SnapshotNotFound`, the
loop fails with the LAST partition's message. -/
theorem snapshot_loop_all_fail (account_id : String) (now_ts : Int) :
    ∀ (ps : List VPartition) (q : VPartition) (last : Option String),
      ps.getLast? = some q →
      (∀ q' ∈ ps, ∃ msg,
        process_partition account_id now_ts q' = .error (.not_found msg)) →
      ∃ msg, process_partition account_id now_ts q = .error (.not_found msg)
        ∧ snapshot_loop account_id now_ts ps last = .error (.not_found msg)
  | [], q, last, hlast, _ => by simp at hlast
  | [p], q, last, hlast, hfail => by
      have hq : q = p := by simpa using hlast.symm
      subst hq
      obtain ⟨msg, hp⟩ := hfail q (List.mem_cons_self _ _)
      refine ⟨msg, hp, ?_⟩
      rw [snapshot_loop_cons_nf _ _ _ _ _ _ hp]
      simp [snapshot_loop]
  | p :: p' :: rest, q, last, hlast, hfail => by
      obtain ⟨msg, hp⟩ := hfail p (List.mem_cons_self _ _)
      obtain ⟨msg', h1, h2⟩ :=
        snapshot_loop_all_fail account_id now_ts (p' :: rest) q (some msg)
          (by simpa using hlast)
          (fun q' hq' => hfail q' (List.mem_cons_of_mem _ hq'))
      refine ⟨msg', h1, ?_⟩
      rw [snapshot_loop_cons_nf _ _ _ _ _ _ hp]
      exact h2

/-- C7 (amended): iterating partitions newest-first, (a) a prefix of
partitions whose processing raises `SnapshotNotFound` (missing account dir,
no snapshot files, or an empty file) is recorded and skipped, and the first
successfully processed partition's data is returned — but an unreadable file
raises a non-`SnapshotNotFound` error, which propagates immediately instead
of continuing; (b) when every partition raises `SnapshotNotFound`, the reader
fails with the LAST encountered message; (c) with no partitions at all it
fails with the generic message. -/
theorem c7_partition_error_recovery :
    (∀ (account_id : String) (now_ts : Int) (parts ps₁ : List VPartition)
        (p : VPartition) (ps₂ : List VPartition)
        (resp : LatestValuationResponse),
        sort_v_partitions parts = ps₁ ++ p :: ps₂ →
        (∀ q ∈ ps₁, ∃ msg,
          process_partition account_id now_ts q = .error (.not_found msg)) →
        process_partition account_id now_ts p = .ok resp →
        get_latest_valuation_snapshot account_id now_ts parts = .ok resp)
    ∧ (∀ (account_id : String) (now_ts : Int) (parts : List VPartition)
        (q : VPartition),
        (sort_v_partitions parts).getLast? = some q →
        (∀ q' ∈ sort_v_partitions parts, ∃ msg,
          process_partition account_id now_ts q' = .error (.not_found msg)) →
        ∃ msg, process_partition account_id now_ts q = .error (.not_found msg)
          ∧ get_latest_valuation_snapshot account_id now_ts parts
              = .error (.not_found msg))
    ∧ (∀ (account_id : String) (now_ts : Int),
        get_latest_valuation_snapshot account_id now_ts []
          = .error (.not_found "No valuation snapshots found.")) := by
  refine ⟨?_, ?_, ?_⟩
  · intro account_id now_ts parts ps₁ p ps₂ resp hsort hfail hp
    unfold get_latest_valuation_snapshot
    rw [hsort]
    rw [if_neg (by simp)]
    exact snapshot_loop_skips account_id now_ts p ps₂ resp hp ps₁ none hfail
  · intro account_id now_ts parts q hlast hfail
    obtain ⟨msg, h1, h2⟩ :=
      snapshot_loop_all_fail account_id now_ts (sort_v_partitions parts) q
        none hlast hfail
    refine ⟨msg, h1, ?_⟩
    unfold get_latest_valuation_snapshot
    rw [if_neg ?_]
    · exact h2
    · intro hemp
      rw [List.isEmpty_iff] at hemp
      rw [hemp] at hlast
      simp at hlast
  · intro account_id now_ts
    rfl

/-- C7 counterexample: a newer partition whose file read raises a
non-`SnapshotNotFound` error (an unreadable file) makes the whole call fail
at once even though an older partition holds readable non-empty data for the
account — the reader does not continue to it. -/
theorem c7_unreadable_file_aborts :
    get_latest_valuation_snapshot "acc-1" 0
        [{ dt := 5
           has_account_dir := true
           file := some "f1"
           read_result := .error "ArrowInvalid: corrupt parquet" },
         { dt := 3
           has_account_dir := true
           file := some "f2"
           read_result := .ok { rows :=
             [{ symbol := some "AAPL"
                quantity := some 1
                value_base := some 10
                status := some "ok" }] } }]
      = .error (.other "ArrowInvalid: corrupt parquet") := rfl

/-- Witness for C7 (amended): an empty-file partition is skipped and the
older readable partition's data is returned (frames lack a value_base column,
keeping totals null). -/
theorem c7_partition_error_recovery_witness :
    get_latest_valuation_snapshot "acc-1" 0
        [{ dt := 3
           has_account_dir := true
           file := some "f2"
           read_result := .ok
             { rows := [{ symbol := some "AAPL"
                          quantity := some 1
                          value_base := some 10
                          status := some "ok" }]
               has_value_base_col := false } },
         { dt := 5
           has_account_dir := true
           file := some "f1"
           read_result := .ok { rows := [] } }]
      = .ok { snapshot_dt := 3
              computed_ts := 0
              account_id := "acc-1"
              totals := { positions := 1
                          ok_positions := 1
                          total_value_base := none }
              rows := [{ symbol := "AAPL"
                         quantity := 1
                         value_base := some 10
                         status := some "ok" }]
              source_file := "f2" } :=
  c7_partition_error_recovery.1 "acc-1" 0
    [{ dt := 3
       has_account_dir := true
       file := some "f2"
       read_result := .ok
         { rows := [{ symbol := some "AAPL"
                      quantity := some 1
                      value_base := some 10
                      status := some "ok" }]
           has_value_base_col := false } },
     { dt := 5
       has_account_dir := true
       file := some "f1"
       read_result := .ok { rows := [] } }]
    [{ dt := 5
       has_account_dir := true
       file := some "f1"
       read_result := .ok { rows := [] } }]
    { dt := 3
      has_account_dir := true
      file := some "f2"
      read_result := .ok
        { rows := [{ symbol := some "AAPL"
                     quantity := some 1
                     value_base := some 10
                     status := some "ok" }]
          has_value_base_col := false } }
    [] _ (by decide)
    (by
      intro q hq
      rw [List.mem_singleton] at hq
      subst hq
      exact ⟨"Valuation file f1 is empty.", by decide⟩)
    (by decide)

/-- Helper for C10: filtering out at least one element makes the list
strictly shorter. -/
theorem length_filterMap_lt_of_none {α β : Type} (f : α → Option β) :
    ∀ (l : List α), (∃ x ∈ l, f x = none) → (l.filterMap f).length < l.length
  | [], h => by simp at h
  | a :: l, h => by
    cases ha : f a with
    | none =>
      simp only [List.filterMap_cons, ha, List.length_cons]
      exact Nat.lt_succ_of_le (List.length_filterMap_le f l)
    | some b =>
      obtain ⟨x, hx, hfx⟩ := h
      rcases List.mem_cons.mp hx with rfl | hx'
      · rw [ha] at hfx
        cases hfx
      · have := length_filterMap_lt_of_none f l ⟨x, hx', hfx⟩
        simp only [List.filterMap_cons, ha, List.length_cons]
        omega

/-- Helper for C10: sorting does not change the number of rows, so
`_build_rows` keeps exactly the truthy-symbol records. -/
theorem build_rows_length (records : List VRow) (tvb : Option Rat) :
    (build_rows records tvb).length
      = (records.filterMap (fun record =>
          match chosen_symbol record with
          | none => none
          | some sym => some (mk_valuation_row record sym tvb))).length := by
  unfold build_rows
  exact (List.perm_insertionSort _ _).length_eq

/-- Helper for C10: every emitted row's portfolio share is computed against
the passed-in total (the share denominator). -/
theorem build_rows_share (records : List VRow) (tvb : Option Rat) :
    ∀ row ∈ build_rows records tvb,
      row.portfolio_share_pct
        = compute_portfolio_share row.value_base tvb := by
  intro row hrow
  unfold build_rows at hrow
  rw [(List.perm_insertionSort _ _).mem_iff] at hrow
  obtain ⟨record, _, hmk⟩ := List.mem_filterMap.mp hrow
  cases hcs : chosen_symbol record with
  | none =>
    rw [hcs] at hmk
    cases hmk
  | some sym =>
    rw [hcs] at hmk
    injection hmk with hmk
    subst hmk
    rfl

/-- C10: rows whose `symbol` and `raw_symbol` are both missing or falsy are
excluded from the response's rows, while `totals.positions` still counts every
row of the file, so `rows.length < totals.positions`; the excluded rows'
`value_base` still contributes to `totals.total_value_base` (the sum runs over
ALL rows), which is also the denominator of every row's portfolio share. -/
theorem c10_falsy_symbol_rows_excluded_but_counted (account_id : String)
    (now_ts : Int) (p : VPartition) (df : VFrame)
    (resp : LatestValuationResponse) (hread : p.read_result = .ok df)
    (h : process_partition account_id now_ts p = .ok resp)
    (hfalsy : ∃ r ∈ df.rows, chosen_symbol r = none)
    (hcol : df.has_value_base_col = true) :
    resp.totals.positions = df.rows.length
    ∧ resp.rows.length < resp.totals.positions
    ∧ resp.totals.total_value_base
        = some ((df.rows.filterMap (fun r => r.value_base)).sum)
    ∧ ∀ row ∈ resp.rows,
        row.portfolio_share_pct
          = compute_portfolio_share row.value_base
              resp.totals.total_value_base := by
  cases hacct : p.has_account_dir with
  | false => simp [process_partition, hacct] at h
  | true =>
    cases hfile : p.file with
    | none => simp [process_partition, hacct, hfile] at h
    | some path =>
      have hne : df.rows.isEmpty = false := by
        obtain ⟨r, hr, _⟩ := hfalsy
        cases hrows : df.rows with
        | nil =>
          rw [hrows] at hr
          cases hr
        | cons a l => simp [hrows]
      cases hsd : parse_snapshot_dt df.snapshot_dt_col p.dt with
      | error e =>
        simp [process_partition, hacct, hfile, hread, hne, hsd] at h
      | ok sd =>
        cases hct : parse_computed_ts df.computed_ts_col now_ts with
        | error e =>
          simp [process_partition, hacct, hfile, hread, hne, hsd, hct] at h
        | ok ct =>
          have hcalc : process_partition account_id now_ts p
              = .ok { snapshot_dt := sd
                      computed_ts := ct
                      account_id := account_id
                      totals := totals_of df
                      rows := build_rows df.rows
                        (totals_of df).total_value_base
                      source_file := path } := by
            simp [process_partition, hacct, hfile, hread, hne, hsd, hct]
          rw [hcalc] at h
          injection h with h
          subst h
          obtain ⟨r, hr, hcs⟩ := hfalsy
          refine ⟨rfl, ?_, ?_, ?_⟩
          · show (build_rows df.rows (totals_of df).total_value_base).length
              < df.rows.length
            rw [build_rows_length]
            exact length_filterMap_lt_of_none _ _ ⟨r, hr, by rw [hcs]⟩
          · show (totals_of df).total_value_base = _
            simp [totals_of, hcol]
          · exact build_rows_share _ _

/-- Witness for C10 at a concrete file: one truthy-symbol row (value 10) and
one row with neither symbol nor raw_symbol (value 5); positions counts 2,
only one output row, the total is 15, and the kept row's share is
10/15 x 100 = 200/3. -/
theorem c10_falsy_symbol_rows_excluded_but_counted_witness :
    ({ snapshot_dt := 3
       computed_ts := 0
       account_id := "acc-1"
       totals := { positions := 2
                   ok_positions := 1
                   total_value_base := some 15 }
       rows := [{ symbol := "A"
                  quantity := 0
                  value_base := some 10
                  status := some "ok"
                  portfolio_share_pct := some (200 / 3) }]
       source_file := "f" } : LatestValuationResponse).totals.positions
        = ([{ symbol := some "A", value_base := some 10, status := some "ok" },
            { value_base := some 5 }] : List VRow).length
    ∧ ({ snapshot_dt := 3
         computed_ts := 0
         account_id := "acc-1"
         totals := { positions := 2
                     ok_positions := 1
                     total_value_base := some 15 }
         rows := [{ symbol := "A"
                    quantity := 0
                    value_base := some 10
                    status := some "ok"
                    portfolio_share_pct := some (200 / 3) }]
         source_file := "f" } : LatestValuationResponse).rows.length
        < ({ snapshot_dt := 3
             computed_ts := 0
             account_id := "acc-1"
             totals := { positions := 2
                         ok_positions := 1
                         total_value_base := some 15 }
             rows := [{ symbol := "A"
                        quantity := 0
                        value_base := some 10
                        status := some "ok"
                        portfolio_share_pct := some (200 / 3) }]
             source_file := "f" } : LatestValuationResponse).totals.positions
    ∧ ({ snapshot_dt := 3
         computed_ts := 0
         account_id := "acc-1"
         totals := { positions := 2
                     ok_positions := 1
                     total_value_base := some 15 }
         rows := [{ symbol := "A"
                    quantity := 0
                    value_base := some 10
                    status := some "ok"
                    portfolio_share_pct := some (200 / 3) }]
         source_file := "f" } : LatestValuationResponse).totals.total_value_base
        = some ((([{ symbol := some "A", value_base := some 10,
                     status := some "ok" },
                   { value_base := some 5 }] : List VRow).filterMap
            (fun r => r.value_base)).sum)
    ∧ ∀ row ∈ ({ snapshot_dt := 3
                 computed_ts := 0
                 account_id := "acc-1"
                 totals := { positions := 2
                             ok_positions := 1
                             total_value_base := some 15 }
                 rows := [{ symbol := "A"
                            quantity := 0
                            value_base := some 10
                            status := some "ok"
                            portfolio_share_pct := some (200 / 3) }]
                 source_file := "f" } : LatestValuationResponse).rows,
        row.portfolio_share_pct
          = compute_portfolio_share row.value_base
              ({ snapshot_dt := 3
                 computed_ts := 0
                 account_id := "acc-1"
                 totals := { positions := 2
                             ok_positions := 1
                             total_value_base := some 15 }
                 rows := [{ symbol := "A"
                            quantity := 0
                            value_base := some 10
                            status := some "ok"
                            portfolio_share_pct := some (200 / 3) }]
                 source_file := "f" } : LatestValuationResponse).totals.total_value_base :=
  c10_falsy_symbol_rows_excluded_but_counted "acc-1" 0
    { dt := 3
      has_account_dir := true
      file := some "f"
      read_result := .ok
        { rows := [{ symbol := some "A", value_base := some 10,
                     status := some "ok" },
                   { value_base := some 5 }] } }
    { rows := [{ symbol := some "A", value_base := some 10,
                 status := some "ok" },
               { value_base := some 5 }] }
    { snapshot_dt := 3
      computed_ts := 0
      account_id := "acc-1"
      totals := { positions := 2
                  ok_positions := 1
                  total_value_base := some 15 }
      rows := [{ symbol := "A"
                 quantity := 0
                 value_base := some 10
                 status := some "ok"
                 portfolio_share_pct := some (200 / 3) }]
      source_file := "f" }
    rfl
    (by
      norm_num [process_partition, parse_snapshot_dt, parse_computed_ts,
        totals_of, build_rows, mk_valuation_row, chosen_symbol,
        compute_portfolio_share, PORTFOLIO_PCT_SCALE, List.insertionSort,
        List.orderedInsert, List.filterMap_cons, List.sum_cons, List.sum_nil])
    ⟨{ value_base := some 5 }, by decide, rfl⟩
    rfl

end Fintracker
